import Mathlib

/-!
Verification of `src/src/app.py` of the `get-semantic-version` repository.

The program is a CI helper written in Python. This file gives a shallow
embedding of its pure core (commit classification, release decision,
release-notes bucketing, branch-name normalization, version resolution)
and of the effectful skeleton of `main` (tag lookup, commit-range listing,
tag creation, the release HTTP request, CI output lines), and proves the
frozen claims about it.

Modelling conventions.
Strings are Lean `String`s (lists of Unicode scalar values); the character
classes of Python's `re` module (`\w`, `\s`), `str.lower`, `str.isnumeric`
and `re.IGNORECASE` are modelled on the ASCII range, which covers every
character class the program's fixed vocabulary and separators use.
Machine integers do not occur; commit timestamps and HTTP status codes are
`Nat`. Fallible operations (git revision lookup, tag resolution) return
`Except String`.
-/

/-- Model of Python `str.lower` on one character, ASCII range: the
uppercase letters `A`–`Z` (code points 65–90) map 32 code points up,
every other character is unchanged. -/
def pyToLower (c : Char) : Char :=
  if 65 ≤ c.toNat ∧ c.toNat ≤ 90 then Char.ofNat (c.toNat + 32) else c

/-- Model of the regex class `\w` (ASCII): letters, digits and underscore. -/
def pyIsWordChar (c : Char) : Bool :=
  decide ((65 ≤ c.toNat ∧ c.toNat ≤ 90) ∨ (97 ≤ c.toNat ∧ c.toNat ≤ 122) ∨
    (48 ≤ c.toNat ∧ c.toNat ≤ 57) ∨ c.toNat = 95)

/-- Model of the regex class `\s` (ASCII): space, tab, newline, vertical
tab, form feed, carriage return. -/
def pyIsSpaceChar (c : Char) : Bool :=
  decide (c.toNat = 32 ∨ c.toNat = 9 ∨ c.toNat = 10 ∨ c.toNat = 11 ∨
    c.toNat = 12 ∨ c.toNat = 13)

/-- Model of Python `str.lower` on a whole string. -/
def pyLowerStr (s : String) : String :=
  ⟨s.data.map pyToLower⟩

/-- Model of `re.sub(r"[^\w\s]", ".", name)` on one character: characters
outside `\w` and `\s` are replaced by a dot. -/
def dotSubChar (c : Char) : Char :=
  if pyIsWordChar c || pyIsSpaceChar c then c else '.'

/-- Branch-name normalization from `app.py` lines 33 and 169:
`re.sub(r"[^\w\s]", ".", branch_name).lower()` — substitute first, then
lower-case the result. -/
def normalizeBranch (branchName : String) : String :=
  pyLowerStr ⟨branchName.data.map dotSubChar⟩

/-- Model of Python `str.isnumeric` for ASCII strings: non-empty and all
decimal digits. (Python also accepts non-ASCII Unicode numerics, on which
the program would subsequently crash in `int()`; tag names produced by
this program are ASCII.) -/
def str_isnumeric (s : String) : Bool :=
  !s.data.isEmpty && s.data.all Char.isDigit

/-- Model of Python `int()` on a string of decimal digits. -/
def str_toNat (s : String) : Nat :=
  s.data.foldl (fun a c => a * 10 + (c.toNat - 48)) 0

/-- Model of Python `str.removeprefix`: drop the leading occurrence of
the given string if it is present, otherwise return the input unchanged. -/
def pyRemovePrefix (s pre : String) : String :=
  if pre.data.isPrefixOf s.data then ⟨s.data.drop pre.data.length⟩ else s

/-- One step of splitting: a separator character opens a new group in
front, any other character is prepended to the first group. -/
def splitCons (sep c : Char) (acc : List (List Char)) : List (List Char) :=
  match acc with
  | [] => [[]]
  | g :: gs => if c = sep then [] :: g :: gs else (c :: g) :: gs

/-- Model of Python `str.split(sep)` for a one-character separator:
splitting the empty string yields `[""]`. -/
def splitOnChar (sep : Char) : List Char → List (List Char)
  | [] => [[]]
  | c :: rest => splitCons sep c (splitOnChar sep rest)

/-- Model of Python substring containment `needle in hay`. -/
def strContainsSub (hay needle : List Char) : Bool :=
  hay.tails.any fun t => needle.isPrefixOf t

/-- Version resolution from `app.py` lines 166–175 of `main`: on the
branch `master` the result is the manifest version string itself;
otherwise the branch name is normalized, the expected tag head
`v<version>-<normalized-branch>.` is stripped from the last tag's name
(empty string when there is no last tag), a purely numeric remainder is
incremented, any other remainder gives build number 1, and the result is
`v<version>-<normalized-branch>.<build>`. -/
def resolveVersion (currentBranch versionNumber : String) (lastTagName : Option String) : String :=
  if currentBranch ∈ ["master"] then versionNumber
  else
    let preRelease := normalizeBranch currentBranch
    let lastTagBuild :=
      match lastTagName with
      | some n => pyRemovePrefix n ("v" ++ versionNumber ++ "-" ++ preRelease ++ ".")
      | none => ""
    let buildNumber := if str_isnumeric lastTagBuild then str_toNat lastTagBuild + 1 else 1
    "v" ++ versionNumber ++ "-" ++ preRelease ++ "." ++ toString buildNumber

/-- Fixed prefix vocabulary `GIT_MESSAGE_PREFIX` from `app.py`, in source
order. -/
def commitTypeVocab : List String :=
  ["build", "chore", "ci", "docs", "feat", "feature", "fix", "perf",
   "refactor", "style", "test"]

/-- Word-boundary test `\b` at the position after a vocabulary word: the
match point is a boundary when the string ends there or the next character
is not a word character. -/
def boundaryOk : List Char → Bool
  | [] => true
  | c :: _ => !(pyIsWordChar c)

/-- One alternative `\b<word>\b` of the type group, tested at the start of
`s` (the pattern is anchored by `^` and `re.match`): the first
`w.length` characters must equal `w` up to case (`re.IGNORECASE`), and a
word boundary must follow. The boundary before the word is automatic at
position 0. -/
def tryVocabWord (w : List Char) (s : List Char) : Bool :=
  ((s.take w.length).map pyToLower == w) && boundaryOk (s.drop w.length)

/-- Ordered alternation of the type group `(?P<type>\bbuild\b|...)`:
the first alternative that matches wins, returning the matched slice of
the input (original case) and the remaining characters. -/
def matchTypeAlt : List (List Char) → List Char → Option (List Char × List Char)
  | [], _ => none
  | w :: ws, s =>
    if tryVocabWord w s then some (s.take w.length, s.drop w.length)
    else matchTypeAlt ws s

/-- Tail pattern `(?P<comment>.*)$` applied to the characters after the
separator: `.` does not match a newline, and `$` matches at the end of the
string or just before a trailing newline. -/
def commentMatch (c : List Char) : Option (List Char) :=
  if c.contains '\n' then
    if c.getLast? = some '\n' ∧ c.dropLast.contains '\n' = false then some c.dropLast
    else none
  else some c

/-- Separator and comment `:\s+(?P<comment>.*)$`: a colon, at least one
whitespace character (the greedy `\s+` consumes the maximal run; backing
off never helps because `.` cannot match the whitespace-adjacent newline
cases that make the greedy parse fail), then the comment. -/
def parseSep : List Char → Option (List Char)
  | ':' :: r =>
    if (r.takeWhile pyIsSpaceChar).isEmpty then none
    else commentMatch (r.dropWhile pyIsSpaceChar)
  | _ => none

/-- One backtracking position of `\S*\)` inside the issue group: the
issue text is `run.take j`, the character at `j` must be the closing
parenthesis, and the rest of the pattern must match after it. -/
def tryIssueAt (run afterRun : List Char) (j : Nat) : Option (List Char × List Char) :=
  if run[j]? = some ')' then
    (parseSep (run.drop (j + 1) ++ afterRun)).map fun cm => (run.take j, cm)
  else none

/-- Greedy backtracking of `\S*` in `\((?P<issue>\S*)\)`: positions for
the closing parenthesis are tried from the largest index down. -/
def tryIssueDesc (run afterRun : List Char) : Nat → Option (List Char × List Char)
  | 0 => tryIssueAt run afterRun 0
  | j + 1 =>
    match tryIssueAt run afterRun (j + 1) with
    | some r => some r
    | none => tryIssueDesc run afterRun j

/-- Optional issue group `(\((?P<issue>\S*)\))?` followed by the separator
and comment. When the rest starts with an opening parenthesis the group is
tried greedily; if no completion matches, the group is skipped — and the
separator parse then necessarily fails on the parenthesis, exactly as in
the regex. Returns the optional issue text and the comment. -/
def parseAfterType (rest : List Char) : Option (Option (List Char) × List Char) :=
  match rest with
  | '(' :: r =>
    let run := r.takeWhile fun a => !(pyIsSpaceChar a)
    let afterRun := r.dropWhile fun a => !(pyIsSpaceChar a)
    (match tryIssueDesc run afterRun (run.length - 1) with
     | some ic => some (some ic.1, ic.2)
     | none => (parseSep rest).map fun cm => (none, cm))
  | r => (parseSep r).map fun cm => (none, cm)

/-- Structured result of a successful classification: the named groups
`type`, `issue` (absent when the optional group did not participate,
as in Python's `groupdict`) and `comment`. -/
structure CommitInfo where
  type : String
  issue : Option String
  comment : String
deriving DecidableEq

/-- Commit classifier: model of matching `get_commit_summary_regex()`
(`app.py` lines 51–59) against a summary with `re.match`, i.e. the
pattern `^(?P<type>\bbuild\b|...)(\((?P<issue>\S*)\))?:\s+(?P<comment>.*)$`
compiled with `re.IGNORECASE | re.VERBOSE`. -/
def classifyChars (s : List Char) : Option (List Char × Option (List Char) × List Char) :=
  match matchTypeAlt (commitTypeVocab.map String.data) s with
  | none => none
  | some tr => (parseAfterType tr.2).map fun ic => (tr.1, ic.1, ic.2)

/-- String-level commit classifier. -/
def classify (s : String) : Option CommitInfo :=
  (classifyChars s.data).map fun r => ⟨⟨r.1⟩, r.2.1.map fun i => ⟨i⟩, ⟨r.2.2⟩⟩

/-- Commit record: only the summary line matters to the claims. -/
structure Commit where
  summary : String
deriving DecidableEq

/-- Release decision `is_new_release` (`app.py` lines 62–67): true as soon
as one commit summary matches the classifier. -/
def is_new_release (commits : List Commit) : Bool :=
  commits.any fun commit => (classify commit.summary).isSome

/-- Bucketing loop of `generate_release_notes` (`app.py` lines 75–84):
classified commits whose `type` is a member of the literal list `["fix"]`
are appended to the fix bucket, all other classified commits to the
feature bucket, unmatched commits' raw summaries to the other bucket.
The recursion prepends the head's contribution to the buckets of the
tail, which yields exactly the append order of the Python loop. Returned
as (feature bucket, fix bucket, other bucket) in source order; template
rendering of the buckets is an external capability and is not modelled. -/
def notesBuckets : List Commit → List CommitInfo × List CommitInfo × List String
  | [] => ([], [], [])
  | commit :: rest =>
    let acc := notesBuckets rest
    match classify commit.summary with
    | some info =>
      if ["fix"].contains info.type then (acc.1, info :: acc.2.1, acc.2.2)
      else (info :: acc.1, acc.2.1, acc.2.2)
    | none => (acc.1, acc.2.1, commit.summary :: acc.2.2)

/-- Git tag as the program sees it: a name, the id (hex sha) of the
pointed-to commit, and that commit's committed timestamp. -/
structure Tag where
  name : String
  commitId : String
  committedDate : Nat
deriving DecidableEq

/-- JSON body of the release-creation POST built in `create_gh_release`
(`app.py` lines 111–117). -/
structure GhReleaseRequest where
  tag_name : String
  name : String
  prerelease : Bool
  make_latest : String
  body : String
deriving DecidableEq

/-- HTTP status `requests.codes.created`. -/
def requests_codes_created : Nat := 201

/-- Request body built by `create_gh_release`: `prerelease` is
`len(tag_name.split("-")) > 1`, `make_latest` the string `"false"` in
exactly that case and `"true"` otherwise, and both name fields are the
tag name. -/
def ghReleaseData (tagName releaseNotes : String) : GhReleaseRequest :=
  { tag_name := tagName
    name := tagName
    prerelease := decide ((splitOnChar '-' tagName.data).length > 1)
    make_latest := if (splitOnChar '-' tagName.data).length > 1 then "false" else "true"
    body := releaseNotes }

/-- Ambient state of one run: CI environment variables, the repository
(tree file names at the branch tip, active branch, its tip commit id, the
tags merged into the branch, the set of names git can resolve to a
revision, and git's `rev-list A..B` answer for resolvable endpoints), the
manifest version string (XML/JSON manifest parsing is thin I/O outside the
claims and is abstracted to this field), the HTTP status and body the
release endpoint answers with, and the external release-notes template
renderer (an external templating capability per the program's design). -/
structure Env where
  githubActions : Option String
  treeFiles : List String
  branch : String
  branchTip : String
  mergedTags : List Tag
  refs : List String
  rangeCommits : String → String → List Commit
  versionNumber : String
  createStatus : Nat
  responseBody : String
  renderTemplate : String → List CommitInfo × List CommitInfo × List String → String

/-- Project detection `get_repo_type` (`app.py` lines 126–131). -/
def get_repo_type (env : Env) : String :=
  if env.treeFiles.contains "pom.xml" then "maven"
  else if env.treeFiles.contains "package.json" then "nodejs"
  else "unknown"

/-- Stdout of `repo.git.tag("--merged", branch)`: the tag names joined by
newlines — the empty string when there are no tags. -/
def gitTagMergedOutput (tags : List Tag) : List Char :=
  List.intercalate ['\n'] (tags.map fun t => t.name.data)

/-- Resolution of `repo.tag(name).commit`: looking up a name that is not
an existing tag (such as the empty name that `"".split("\n")` produces)
raises. -/
def resolveTagRef (env : Env) (tagName : List Char) : Except String Tag :=
  match env.mergedTags.find? (fun t => t.name.data == tagName) with
  | some t => .ok t
  | none => .error ("Reference at refs/tags/" ++ String.mk tagName ++ " does not exist")

/-- Python `max(tags, key=lambda tag: tag.commit.committed_date)`: the
first element of maximal committed date. -/
def maxByCommittedDate (t : Tag) (ts : List Tag) : Tag :=
  ts.foldl (fun acc x => if x.committedDate > acc.committedDate then x else acc) t

/-- `get_last_tag` (`app.py` lines 27–39): split the `git tag --merged`
output on newlines; on any branch other than `master` keep only the names
containing the normalized branch name as a substring; if no names remain
the result is absent, otherwise every remaining name is resolved to a tag
(the key function runs on all elements of `max`'s argument) and the one
with the latest commit timestamp is returned. -/
def get_last_tag (env : Env) (branchName : String) : Except String (Option Tag) :=
  let allNames := splitOnChar '\n' (gitTagMergedOutput env.mergedTags)
  let names :=
    if branchName = "master" then allNames
    else allNames.filter fun n => strContainsSub n (normalizeBranch branchName).data
  match names with
  | [] => .ok none
  | n :: ns => do
    let t ← resolveTagRef env n
    let ts ← ns.mapM (resolveTagRef env)
    .ok (some (maxByCommittedDate t ts))

/-- `get_commits_between` (`app.py` lines 42–48): the revision range is
the f-string `f"{start_commit}..{end_commit}"`, so an absent start commit
is formatted as the literal `None`; `git rev-list` rejects a range whose
endpoints it cannot resolve. On success returns the commits and the lines
printed (`Commits:` and one ` - <summary>` line each, when non-empty). -/
def get_commits_between (env : Env) (startCommit : Option String) (endCommit : String) :
    Except String (List Commit × List String) :=
  let revA := match startCommit with | none => "None" | some s => s
  if env.refs.contains revA && env.refs.contains endCommit then
    let commits := env.rangeCommits revA endCommit
    .ok (commits,
      if commits.isEmpty then [] else "Commits:" :: commits.map fun c => " - " ++ c.summary)
  else
    .error ("fatal: ambiguous argument " ++ revA ++ ".." ++ endCommit ++
      ": unknown revision or path not in the working tree")

/-- `create_gh_release` (`app.py` lines 101–123): returns the request it
POSTs and the lines it prints — `Release created` on a created status,
otherwise the status code and the response body. No status makes it
raise. -/
def create_gh_release (env : Env) (tagName releaseNotes : String) :
    GhReleaseRequest × List String :=
  (ghReleaseData tagName releaseNotes,
   if env.createStatus = requests_codes_created then ["Release created"]
   else [toString env.createStatus, env.responseBody])

/-- `generate_release_notes` (`app.py` lines 70–93): bucket the commits
and hand the buckets to the external template. -/
def generate_release_notes (env : Env) (version : String) (commits : List Commit) : String :=
  env.renderTemplate version (notesBuckets commits)

deriving instance DecidableEq for Except

/-- Observable effects of one run of `main`: lines printed to stdout,
`key=value` pairs appended to the `GITHUB_OUTPUT` file in order, tags
created, tags pushed, release-creation requests POSTed, and the outcome —
`ok` with the return code, or `error` when an uncaught exception aborts
the run. -/
structure RunResult where
  printed : List String
  outputs : List (String × String)
  tagsCreated : List String
  pushedTags : List String
  httpPosts : List GhReleaseRequest
  outcome : Except String Nat
deriving DecidableEq

/-- Transcription of `main` (`app.py` lines 134–189). Dry-run mode holds
when the `GITHUB_ACTIONS` variable is not the string `true`. Unknown
project type returns 1. Tag lookup and commit listing can abort the run.
When a release is warranted or in dry-run, the manifest version is read
and the version string resolved and printed; outside dry-run the tag is
created and pushed, the release POSTed (non-created statuses only print),
`new_release_version` written, and finally `new_release` written. -/
def runMain (env : Env) : RunResult :=
  let dryRun : Bool := !(env.githubActions == some "true")
  let p0 : List String := if dryRun then ["dry-run mode!"] else []
  let repoType := get_repo_type env
  let p1 := p0 ++ [repoType ++ " project detected"]
  if repoType = "unknown" then
    ⟨p1, [], [], [], [], .ok 1⟩
  else
    match get_last_tag env env.branch with
    | .error e => ⟨p1, [], [], [], [], .error e⟩
    | .ok lastTag =>
      let p2 := p1 ++
        ["current tag: " ++ (match lastTag with | some t => t.name | none => "None")]
      match get_commits_between env (lastTag.map fun t => t.commitId) env.branchTip with
      | .error e => ⟨p2, [], [], [], [], .error e⟩
      | .ok cr =>
        let commits := cr.1
        let p3 := p2 ++ cr.2
        let createNewRelease := is_new_release commits
        if createNewRelease || dryRun then
          let versionString :=
            resolveVersion env.branch env.versionNumber (lastTag.map fun t => t.name)
          let p4 := p3 ++ ["new tag: " ++ versionString]
          if dryRun then
            ⟨p4, [], [], [], [], .ok 0⟩
          else
            let releaseNotes := generate_release_notes env versionString commits
            let post := create_gh_release env versionString releaseNotes
            ⟨p4 ++ post.2,
             [("new_release_version", versionString),
              ("new_release", if createNewRelease then "true" else "false")],
             [versionString], [versionString], [post.1], .ok 0⟩
        else
          if dryRun then ⟨p3, [], [], [], [], .ok 0⟩
          else ⟨p3, [("new_release", if createNewRelease then "true" else "false")],
                [], [], [], .ok 0⟩

/-- Repository on branch `master` holding one commit and no tag at all,
in a live CI run. -/
def envNoTagMaster : Env :=
  { githubActions := some "true", treeFiles := ["pom.xml"], branch := "master",
    branchTip := "c0", mergedTags := [], refs := ["c0"],
    rangeCommits := fun _ _ => [], versionNumber := "1.0.0",
    createStatus := 201, responseBody := "", renderTemplate := fun _ _ => "" }

/-- Repository on branch `feature/x` holding one commit and no tag at
all, in a live CI run. -/
def envNoTagFeature : Env :=
  { githubActions := some "true", treeFiles := ["pom.xml"], branch := "feature/x",
    branchTip := "c0", mergedTags := [], refs := ["c0"],
    rangeCommits := fun _ _ => [⟨"feat: x"⟩], versionNumber := "1.0.0",
    createStatus := 201, responseBody := "", renderTemplate := fun _ _ => "" }

/-- Dry run (no `GITHUB_ACTIONS` variable) on a tagless `master`. -/
def envDryNoTag : Env :=
  { githubActions := none, treeFiles := ["pom.xml"], branch := "master",
    branchTip := "c0", mergedTags := [], refs := ["c0"],
    rangeCommits := fun _ _ => [], versionNumber := "2.3.0",
    createStatus := 201, responseBody := "", renderTemplate := fun _ _ => "" }

/-- Dry run on a repository with no recognized manifest file. -/
def envDryUnknown : Env :=
  { githubActions := none, treeFiles := ["README.md"], branch := "master",
    branchTip := "c0", mergedTags := [], refs := ["c0"],
    rangeCommits := fun _ _ => [⟨"feat: x"⟩], versionNumber := "2.3.0",
    createStatus := 201, responseBody := "", renderTemplate := fun _ _ => "" }

/-- Dry run on branch `feature/abc` with a prior qualifying tag and no
release-worthy commit in the range. -/
def envDryTagged : Env :=
  { githubActions := none, treeFiles := ["package.json"], branch := "feature/abc",
    branchTip := "c2", mergedTags := [⟨"v2.3.0-feature.abc.1", "c1", 5⟩],
    refs := ["c1", "c2"], rangeCommits := fun _ _ => [⟨"merge branch foo"⟩],
    versionNumber := "2.3.0", createStatus := 201, responseBody := "",
    renderTemplate := fun _ _ => "" }

/-- Live run on `master` with a prior tag, one release-worthy commit, and
a release endpoint answering 422. -/
def env422 : Env :=
  { githubActions := some "true", treeFiles := ["package.json"], branch := "master",
    branchTip := "c2", mergedTags := [⟨"v0.9.0", "c1", 5⟩], refs := ["c1", "c2"],
    rangeCommits := fun _ _ => [⟨"fix: y"⟩], versionNumber := "2.0.0",
    createStatus := 422, responseBody := "Validation Failed",
    renderTemplate := fun _ _ => "notes" }

theorem char_toNat_ofNat (n : Nat) (h : n < 55296) : (Char.ofNat n).toNat = n := by
  have hv : n.isValidChar := Or.inl h
  simp [Char.ofNat, hv, Char.ofNatAux, Char.toNat, UInt32.toNat, BitVec.toNat_ofNatLt]

theorem toNat_pyToLower_of_upper (c : Char) (h1 : 65 ≤ c.toNat) (h2 : c.toNat ≤ 90) :
    (pyToLower c).toNat = c.toNat + 32 := by
  rw [pyToLower, if_pos ⟨h1, h2⟩, char_toNat_ofNat]
  omega

theorem pyToLower_eq_self (c : Char) (h : ¬ (65 ≤ c.toNat ∧ c.toNat ≤ 90)) :
    pyToLower c = c := if_neg h

theorem pyToLower_idem (c : Char) : pyToLower (pyToLower c) = pyToLower c := by
  by_cases h : 65 ≤ c.toNat ∧ c.toNat ≤ 90
  · have := toNat_pyToLower_of_upper c h.1 h.2
    apply pyToLower_eq_self
    omega
  · rw [pyToLower_eq_self c h]
    exact pyToLower_eq_self c h

theorem pyIsWord_pyToLower (c : Char) (h : pyIsWordChar c = true) :
    pyIsWordChar (pyToLower c) = true := by
  by_cases hu : 65 ≤ c.toNat ∧ c.toNat ≤ 90
  · have := toNat_pyToLower_of_upper c hu.1 hu.2
    simp only [pyIsWordChar, decide_eq_true_eq] at *
    omega
  · rw [pyToLower_eq_self c hu]
    exact h

theorem pyToLower_eq_self_of_not_word (c : Char) (h : pyIsWordChar c = false) :
    pyToLower c = c := by
  apply pyToLower_eq_self
  simp only [pyIsWordChar, decide_eq_false_iff_not] at h
  omega

theorem pyToLower_eq_self_of_space (c : Char) (h : pyIsSpaceChar c = true) :
    pyToLower c = c := by
  apply pyToLower_eq_self
  simp only [pyIsSpaceChar, decide_eq_true_eq] at h
  omega

/-- Normalizing one character depends only on its lower-cased form. -/
theorem dotSub_lower_eq (c : Char) :
    pyToLower (dotSubChar c) = dotSubChar (pyToLower c) := by
  by_cases hw : pyIsWordChar c = true
  · have h1 : dotSubChar c = c := by
      rw [dotSubChar, hw]
      simp
    have h2 : dotSubChar (pyToLower c) = pyToLower c := by
      rw [dotSubChar, pyIsWord_pyToLower c hw]
      simp
    rw [h1, h2]
  · simp only [Bool.not_eq_true] at hw
    by_cases hs : pyIsSpaceChar c = true
    · have h1 : dotSubChar c = c := by
        rw [dotSubChar, hs]
        simp
      rw [h1, pyToLower_eq_self_of_space c hs, h1]
    · simp only [Bool.not_eq_true] at hs
      have h1 : dotSubChar c = '.' := by
        rw [dotSubChar, hw, hs]
        simp
      rw [h1, pyToLower_eq_self_of_not_word c hw, h1]
      decide

theorem pyIsWord_of_lower_word (c : Char) (h : pyIsWordChar (pyToLower c) = true) :
    pyIsWordChar c = true := by
  by_cases hu : 65 ≤ c.toNat ∧ c.toNat ≤ 90
  · simp only [pyIsWordChar, decide_eq_true_eq]
    omega
  · rw [pyToLower_eq_self c hu] at h
    exact h

theorem dotSubChar_idem (c : Char) : dotSubChar (dotSubChar c) = dotSubChar c := by
  by_cases h : (pyIsWordChar c || pyIsSpaceChar c) = true
  · have e : dotSubChar c = c := by rw [dotSubChar, if_pos h]
    rw [e]
    exact e
  · have e : dotSubChar c = '.' := by rw [dotSubChar, if_neg h]
    rw [e]
    decide

theorem normalizeBranch_data (s : String) :
    normalizeBranch s = ⟨s.data.map fun c => pyToLower (dotSubChar c)⟩ := by
  rw [normalizeBranch, pyLowerStr]
  show String.mk ((s.data.map dotSubChar).map pyToLower) = _
  rw [List.map_map]
  rfl

theorem splitOnChar_ne_nil (sep : Char) (l : List Char) : splitOnChar sep l ≠ [] := by
  cases l with
  | nil => simp [splitOnChar]
  | cons c rest =>
    rw [splitOnChar]
    cases h : splitOnChar sep rest with
    | nil => simp [splitCons]
    | cons g gs =>
      by_cases hc : c = sep <;> simp [splitCons, hc]

theorem splitOnChar_length (sep : Char) (l : List Char) :
    (splitOnChar sep l).length = l.count sep + 1 := by
  induction l with
  | nil => rfl
  | cons c rest ih =>
    rw [splitOnChar]
    cases h : splitOnChar sep rest with
    | nil => exact absurd h (splitOnChar_ne_nil sep rest)
    | cons g gs =>
      rw [h] at ih
      simp only [List.length_cons] at ih
      by_cases hc : c = sep
      · subst hc
        rw [List.count_cons_self]
        simp [splitCons]
        omega
      · rw [List.count_cons_of_ne (fun e => hc e.symm)]
        simp [splitCons, hc]
        omega

example : normalizeBranch "Feature/ABC-123" = "feature.abc.123" := by decide
example : resolveVersion "master" "2.3.0" none = "2.3.0" := by decide
example : resolveVersion "release/1.x" "1.0.0" (some "v1.0.0-release.1.x.3")
    = "v1.0.0-release.1.x.4" := by decide
example : resolveVersion "feature/abc" "1.0.0" none = "v1.0.0-feature.abc.1" := by decide
example : splitOnChar '\n' [] = [[]] := by decide
example : str_isnumeric "" = false := by decide
example : str_toNat "37" = 37 := by decide
example : pyRemovePrefix "v1.0.0-f.3" "v1.0.0-f." = "3" := by decide
example : strContainsSub "v1.0.0-feature.x.2".data "feature.x".data = true := by decide
example : classify "feat: add X" = some ⟨"feat", none, "add X"⟩ := by decide
example : classify "fix(JIRA-5): bug" = some ⟨"fix", some "JIRA-5", "bug"⟩ := by decide
example : classify "FIX: bug" = some ⟨"FIX", none, "bug"⟩ := by decide
example : classify "merge branch foo" = none := by decide
example : classify "feature(X): y" = some ⟨"feature", some "X", "y"⟩ := by decide
example : classify "fix:bug" = none := by decide
example : classify "fixes: x" = none := by decide
example : classify "fix(a)x: y" = none := by decide
example : classify "fix(a(b)): c" = some ⟨"fix", some "a(b)", "c"⟩ := by decide
example : classify "fix(): empty" = some ⟨"fix", some "", "empty"⟩ := by decide
example : classify "docs:  two  spaces" = some ⟨"docs", none, "two  spaces"⟩ := by decide
example : is_new_release [] = false := by decide
example : is_new_release [⟨"feat: add X"⟩, ⟨"docs: typo"⟩] = true := by decide
example : is_new_release [⟨"merge branch foo"⟩] = false := by decide
example : notesBuckets [⟨"FIX: bug"⟩] = ([⟨"FIX", none, "bug"⟩], [], []) := by decide
example : notesBuckets [⟨"feat: a"⟩, ⟨"fix: b"⟩, ⟨"zzz"⟩]
    = ([⟨"feat", none, "a"⟩], [⟨"fix", none, "b"⟩], ["zzz"]) := by decide

example :
    runMain
      { githubActions := some "true", treeFiles := ["pom.xml"], branch := "master",
        branchTip := "c2", mergedTags := [⟨"v0.9.0", "c1", 5⟩], refs := ["c1", "c2"],
        rangeCommits := fun _ _ => [⟨"feat: x"⟩], versionNumber := "1.0.0",
        createStatus := 201, responseBody := "", renderTemplate := fun _ _ => "notes" }
    = ⟨["maven project detected", "current tag: v0.9.0", "Commits:", " - feat: x",
        "new tag: 1.0.0", "Release created"],
       [("new_release_version", "1.0.0"), ("new_release", "true")],
       ["1.0.0"], ["1.0.0"], [⟨"1.0.0", "1.0.0", false, "true", "notes"⟩], .ok 0⟩ := by
  decide

example :
    (runMain
      { githubActions := some "true", treeFiles := ["pom.xml"], branch := "master",
        branchTip := "c0", mergedTags := [], refs := ["c0"],
        rangeCommits := fun _ _ => [], versionNumber := "1.0.0",
        createStatus := 201, responseBody := "", renderTemplate := fun _ _ => "" }).outcome
    = .error "Reference at refs/tags/ does not exist" := by
  decide

/-- Claim C1, counterexample: with base version `2.3.0` on branch `master`
and no prior tag, the resolved version is `2.3.0`, not `v2.3.0` — the
code assigns the manifest version itself, without the `v` head the claim
asserts. -/
theorem spec_c1_counterexample :
    resolveVersion "master" "2.3.0" none = "2.3.0"
    ∧ resolveVersion "master" "2.3.0" none ≠ "v2.3.0"
    ∧ resolveVersion "master" "2.3.0" (some "v2.2.0") = "2.3.0" := by
  decide

/-- Claim C1 as amended: for every base version string B read from the
manifest, when the current branch is `master`, the resolved version
string equals B itself (no `v` in front), regardless of any prior tags. -/
theorem spec_c1_amended (baseVersion : String) (lastTagName : Option String) :
    resolveVersion "master" baseVersion lastTagName = baseVersion := by
  simp [resolveVersion]

/-- Claim C2: with no prior tag the pipeline fails rather than treating
the range as starting at the repository root. On `master` the tag lookup
itself aborts: `"".split("\n")` yields `[""]` and resolving the empty tag
name raises. On `feature/x` the lookup does return the absent value, but
the commit listing then formats the range as `None..c0`, which git
rejects, so the run aborts with no outputs. -/
theorem spec_c2_code_bug :
    (runMain envNoTagMaster).outcome = .error "Reference at refs/tags/ does not exist"
    ∧ get_last_tag envNoTagFeature "feature/x" = .ok none
    ∧ (runMain envNoTagFeature).outcome =
        .error "fatal: ambiguous argument None..c0: unknown revision or path not in the working tree"
    ∧ (runMain envNoTagFeature).outputs = [] := by
  decide

/-- Claim C3, counterexample: the commit `FIX: bug` classifies with type
`FIX`, whose lower-casing is `fix`, yet it lands in the feature bucket
(first component) and the fix bucket (second component) stays empty —
the membership test `in ["fix"]` is case-sensitive, not case-insensitive
as claimed. -/
theorem spec_c3_counterexample :
    classify "FIX: bug" = some ⟨"FIX", none, "bug"⟩
    ∧ pyLowerStr "FIX" = "fix"
    ∧ notesBuckets [⟨"FIX: bug"⟩] = ([⟨"FIX", none, "bug"⟩], [], []) := by
  decide

/-- Claim C3 as amended: for every list of commits, a classified commit
is in the fix bucket if and only if its matched type is exactly the
string `fix` (compared case-sensitively, so `FIX` and `Fix` land in the
feature bucket); every other classified commit is in the feature bucket,
and every unclassified commit's raw summary is in the other bucket, each
in input order. -/
theorem spec_c3_amended (commits : List Commit) :
    notesBuckets commits =
      ((commits.filterMap fun c => classify c.summary).filter
          (fun info => !(["fix"].contains info.type)),
       (commits.filterMap fun c => classify c.summary).filter
          (fun info => ["fix"].contains info.type),
       (commits.filter fun c => (classify c.summary).isNone).map fun c => c.summary) := by
  induction commits with
  | nil => rfl
  | cons c rest ih =>
    rw [notesBuckets, ih]
    cases h : classify c.summary with
    | none => simp [List.filterMap_cons, List.filter_cons, h]
    | some info =>
      by_cases hf : info.type = "fix"
      · simp [List.filterMap_cons, List.filter_cons, h, hf]
      · simp [List.filterMap_cons, List.filter_cons, h, hf]

/-- Claim C4: on a non-`master` branch with base version B and normalized
branch P, the resolved version is `v<B>-<P>.<n>` where the build number n
is the remainder of stripping `v<B>-<P>.` from the last tag's name plus
one when that remainder is purely numeric, and 1 when there is no prior
tag or the remainder is empty or non-numeric. -/
theorem spec_c4_build_number (branch baseVersion : String) (lastTagName : Option String)
    (hb : branch ≠ "master") :
    resolveVersion branch baseVersion lastTagName =
      "v" ++ baseVersion ++ "-" ++ normalizeBranch branch ++ "." ++
        toString
          (if str_isnumeric
              (match lastTagName with
               | some n =>
                 pyRemovePrefix n ("v" ++ baseVersion ++ "-" ++ normalizeBranch branch ++ ".")
               | none => "")
           then str_toNat
              (match lastTagName with
               | some n =>
                 pyRemovePrefix n ("v" ++ baseVersion ++ "-" ++ normalizeBranch branch ++ ".")
               | none => "") + 1
           else 1) := by
  rw [resolveVersion, if_neg]
  simp [hb]

/-- Claim C4 witness: branch `release/1.x`, base version `1.0.0`, prior
tag `v1.0.0-release.1.x.3` resolve to `v1.0.0-release.1.x.4`, and with no
prior tag to build number 1. -/
theorem spec_c4_build_number_witness :
    resolveVersion "release/1.x" "1.0.0" (some "v1.0.0-release.1.x.3")
        = "v1.0.0-release.1.x.4"
    ∧ resolveVersion "release/1.x" "1.0.0" none = "v1.0.0-release.1.x.1" := by
  constructor
  · exact (spec_c4_build_number "release/1.x" "1.0.0" (some "v1.0.0-release.1.x.3")
      (by decide)).trans (by decide)
  · exact (spec_c4_build_number "release/1.x" "1.0.0" none (by decide)).trans (by decide)

/-- Claim C5: the release decision on the empty commit list is false, and
on any list it is true exactly when some commit's summary classifies,
whatever the matched type is. -/
theorem spec_c5_release_decision :
    is_new_release [] = false
    ∧ ∀ commits : List Commit,
        (is_new_release commits = true ↔
          ∃ commit ∈ commits, (classify commit.summary).isSome = true) := by
  refine ⟨rfl, fun commits => ?_⟩
  simp [is_new_release, List.any_eq_true]

/-- Claim C5 witness: a list with one conventional commit triggers a
release. -/
theorem spec_c5_release_decision_witness :
    is_new_release [⟨"feat: add X"⟩] = true :=
  (spec_c5_release_decision.2 [⟨"feat: add X"⟩]).mpr
    ⟨⟨"feat: add X"⟩, by decide, by decide⟩

/-- Claim C8: for every tag name and notes body, the release request sent
by `create_gh_release` carries the tag name in both `tag_name` and
`name`, sets `prerelease` exactly when the tag name contains a dash, and
sets `make_latest` to the string `false` exactly when `prerelease` is
set, to `true` otherwise. -/
theorem spec_c8_release_request (tagName releaseNotes : String) :
    (ghReleaseData tagName releaseNotes).tag_name = tagName
    ∧ (ghReleaseData tagName releaseNotes).name = tagName
    ∧ ((ghReleaseData tagName releaseNotes).prerelease = true ↔ '-' ∈ tagName.data)
    ∧ ((ghReleaseData tagName releaseNotes).make_latest = "false" ↔
        (ghReleaseData tagName releaseNotes).prerelease = true)
    ∧ ((ghReleaseData tagName releaseNotes).prerelease = false →
        (ghReleaseData tagName releaseNotes).make_latest = "true") := by
  refine ⟨rfl, rfl, ?_, ?_, ?_⟩
  · simp only [ghReleaseData, decide_eq_true_eq, splitOnChar_length]
    rw [← List.count_pos_iff]
    omega
  · by_cases hlen : (splitOnChar '-' tagName.data).length > 1
    · simp [ghReleaseData, hlen]
    · simp [ghReleaseData, hlen]
  · by_cases hlen : (splitOnChar '-' tagName.data).length > 1
    · simp [ghReleaseData, hlen]
    · simp [ghReleaseData, hlen]


/-- Claim C8 witness: a dash-free tag gets `make_latest = "true"`, a
dashed tag is marked prerelease. -/
theorem spec_c8_release_request_witness :
    (ghReleaseData "1.0.0" "notes").make_latest = "true"
    ∧ (ghReleaseData "v1.0.0-f.1" "notes").prerelease = true := by
  constructor
  · exact (spec_c8_release_request "1.0.0" "notes").2.2.2.2 (by decide)
  · exact (spec_c8_release_request "v1.0.0-f.1" "notes").2.2.1.mpr (by decide)

/-- Claim C9: branch-name normalization is idempotent, two branch names
with the same lower-casing normalize identically, and `Feature/ABC-123`
normalizes to `feature.abc.123`. -/
theorem spec_c9_normalization :
    (∀ s : String, normalizeBranch (normalizeBranch s) = normalizeBranch s)
    ∧ (∀ s₁ s₂ : String, pyLowerStr s₁ = pyLowerStr s₂ →
        normalizeBranch s₁ = normalizeBranch s₂)
    ∧ normalizeBranch "Feature/ABC-123" = "feature.abc.123" := by
  have hchar : ∀ c : Char,
      pyToLower (dotSubChar (pyToLower (dotSubChar c))) = pyToLower (dotSubChar c) := by
    intro c
    calc pyToLower (dotSubChar (pyToLower (dotSubChar c)))
        = pyToLower (pyToLower (dotSubChar (dotSubChar c))) := by rw [← dotSub_lower_eq]
      _ = pyToLower (pyToLower (dotSubChar c)) := by rw [dotSubChar_idem]
      _ = pyToLower (dotSubChar c) := pyToLower_idem _
  refine ⟨fun s => ?_, fun s₁ s₂ h => ?_, by decide⟩
  · rw [normalizeBranch_data, normalizeBranch_data]
    show String.mk (((s.data.map fun c => pyToLower (dotSubChar c)).map
        fun c => pyToLower (dotSubChar c))) = _
    rw [List.map_map]
    exact congrArg String.mk (List.map_congr_left fun a _ => hchar a)
  · have hd : s₁.data.map pyToLower = s₂.data.map pyToLower := congrArg String.data h
    rw [normalizeBranch_data, normalizeBranch_data]
    refine congrArg String.mk ?_
    calc s₁.data.map (fun c => pyToLower (dotSubChar c))
        = s₁.data.map (fun c => dotSubChar (pyToLower c)) :=
          List.map_congr_left fun a _ => dotSub_lower_eq a
      _ = (s₁.data.map pyToLower).map dotSubChar := by rw [List.map_map]; rfl
      _ = (s₂.data.map pyToLower).map dotSubChar := by rw [hd]
      _ = s₂.data.map (fun c => dotSubChar (pyToLower c)) := by rw [List.map_map]; rfl
      _ = s₂.data.map (fun c => pyToLower (dotSubChar c)) :=
          List.map_congr_left fun a _ => (dotSub_lower_eq a).symm

/-- Claim C9 witness: two casings of one branch name normalize to the
same string. -/
theorem spec_c9_normalization_witness :
    normalizeBranch "FEATURE/ABC-123" = normalizeBranch "feature/abc-123" :=
  spec_c9_normalization.2.1 "FEATURE/ABC-123" "feature/abc-123" (by decide)

/-- Claim C10, counterexample: in dry-run mode on a tagless repository
the run aborts in the tag lookup — no `new tag:` line is printed, so the
version is not computed and printed as the claim states (outputs do stay
empty); a second dry-run state with no recognized manifest returns 1,
also without computing a version. -/
theorem spec_c10_counterexample :
    (runMain envDryNoTag).outcome = .error "Reference at refs/tags/ does not exist"
    ∧ ((runMain envDryNoTag).printed.all fun s => !("new tag: ".data.isPrefixOf s.data)) = true
    ∧ (runMain envDryNoTag).outputs = []
    ∧ (runMain envDryUnknown).outcome = .ok 1
    ∧ ((runMain envDryUnknown).printed.all fun s => !("new tag: ".data.isPrefixOf s.data)) = true := by
  decide

/-- Claim C10 as amended: in dry-run mode, provided a known project type
is detected and the last-tag lookup and commit-range listing succeed (in
particular when a prior tag exists), `main` writes no `key=value` line at
all to the CI output file, creates no tag, pushes nothing and makes no
HTTP call, and it computes and prints the version string even when no
release-worthy commit exists. -/
theorem spec_c10_amended (env : Env) (lastTag : Option Tag)
    (hdry : env.githubActions ≠ some "true")
    (htype : get_repo_type env ≠ "unknown")
    (htag : get_last_tag env env.branch = .ok lastTag)
    (hstart : (match lastTag with | some tg => tg.commitId | none => "None") ∈ env.refs)
    (htip : env.branchTip ∈ env.refs) :
    (runMain env).outputs = []
    ∧ (runMain env).tagsCreated = []
    ∧ (runMain env).pushedTags = []
    ∧ (runMain env).httpPosts = []
    ∧ (runMain env).outcome = .ok 0
    ∧ ("new tag: " ++
        resolveVersion env.branch env.versionNumber (lastTag.map fun tg => tg.name))
        ∈ (runMain env).printed := by
  have hbeq : (env.githubActions == some "true") = false := beq_eq_false_iff_ne.mpr hdry
  cases lastTag with
  | none =>
    simp only [] at hstart
    simp [runMain, htype, htag, get_commits_between, hstart, htip, hbeq]
  | some tg =>
    simp only [] at hstart
    simp [runMain, htype, htag, get_commits_between, hstart, htip, hbeq]

/-- Claim C10 witness: a concrete dry run with a prior qualifying tag
and no release-worthy commit writes no outputs. -/
theorem spec_c10_amended_witness :
    (runMain envDryTagged).outputs = [] :=
  (spec_c10_amended envDryTagged (some ⟨"v2.3.0-feature.abc.1", "c1", 5⟩)
    (by decide) (by decide) (by decide) (by decide) (by decide)).1

/-- Claim C7: in a live run that publishes a release, a non-created HTTP
status does not abort the run — the status code and the response body are
printed, and both outputs `new_release_version` (the computed version)
and `new_release=true` are still written, in that order. -/
theorem spec_c7_nonfatal_http (env : Env) (tg : Tag)
    (hlive : env.githubActions = some "true")
    (htype : get_repo_type env ≠ "unknown")
    (htag : get_last_tag env env.branch = .ok (some tg))
    (hstart : tg.commitId ∈ env.refs)
    (htip : env.branchTip ∈ env.refs)
    (hrel : is_new_release (env.rangeCommits tg.commitId env.branchTip) = true)
    (hstatus : env.createStatus ≠ requests_codes_created) :
    (runMain env).outcome = .ok 0
    ∧ (runMain env).outputs =
        [("new_release_version",
            resolveVersion env.branch env.versionNumber (some tg.name)),
         ("new_release", "true")]
    ∧ toString env.createStatus ∈ (runMain env).printed
    ∧ env.responseBody ∈ (runMain env).printed := by
  have hbeq : (env.githubActions == some "true") = true := by
    rw [hlive]
    rfl
  have hs : env.createStatus ≠ 201 := hstatus
  simp [runMain, htype, htag, get_commits_between, hstart, htip, hbeq, hrel,
    create_gh_release, requests_codes_created, hs]

/-- Claim C7 witness: with the release endpoint answering 422, the
concrete run still exits 0 and writes both outputs. -/
theorem spec_c7_nonfatal_http_witness :
    (runMain env422).outcome = .ok 0
    ∧ (runMain env422).outputs =
        [("new_release_version", "2.0.0"), ("new_release", "true")] := by
  have h := spec_c7_nonfatal_http env422 ⟨"v0.9.0", "c1", 5⟩
    (by decide) (by decide) (by decide) (by decide) (by decide) (by decide) (by decide)
  exact ⟨h.1, h.2.1.trans (by decide)⟩


theorem tryVocab_ne (v w t r : List Char) (hlow : t.map pyToLower = w)
    (hv : ¬ v <+: w) (hw : ¬ w <+: v) :
    tryVocabWord v (t ++ ':' :: r) = false := by
  have hlen : t.length = w.length := by rw [← hlow, List.length_map]
  have hne : ((t ++ ':' :: r).take v.length).map pyToLower ≠ v := by
    intro he
    by_cases hc : v.length ≤ w.length
    · rw [List.take_append_of_le_length (by omega), List.map_take, hlow] at he
      exact hv (he ▸ List.take_prefix v.length w)
    · push_neg at hc
      rw [List.take_append_eq_append_take, List.take_of_length_le (by omega),
        List.map_append, hlow] at he
      exact hw ⟨_, he⟩
  rw [tryVocabWord, beq_eq_false_iff_ne.mpr hne, Bool.false_and]

theorem tryVocab_strict (v w t r : List Char) (hlow : t.map pyToLower = w)
    (hlt : v.length < w.length)
    (hwc : ∀ c ∈ w, pyIsWordChar c = true) :
    tryVocabWord v (t ++ ':' :: r) = false := by
  have hlen : t.length = w.length := by rw [← hlow, List.length_map]
  have hdrop : (t ++ ':' :: r).drop v.length = t.drop v.length ++ ':' :: r :=
    List.drop_append_of_le_length (by omega)
  cases hd : t.drop v.length with
  | nil =>
    have hl : (t.drop v.length).length = t.length - v.length := List.length_drop _ _
    rw [hd] at hl
    simp only [List.length_nil] at hl
    omega
  | cons e es =>
    have hmap := congrArg (List.map pyToLower) hd
    rw [List.map_drop, hlow] at hmap
    have hmem : pyToLower e ∈ w := by
      have h1 : pyToLower e ∈ w.drop v.length := by
        rw [hmap]
        exact List.mem_cons_self _ _
      exact List.mem_of_mem_drop h1
    have hword : pyIsWordChar e = true := pyIsWord_of_lower_word e (hwc _ hmem)
    rw [tryVocabWord, hdrop, hd, List.cons_append]
    show (_ && boundaryOk (e :: (es ++ ':' :: r))) = false
    rw [boundaryOk, hword]
    simp

theorem tryVocab_self (w t r : List Char) (hlow : t.map pyToLower = w) :
    tryVocabWord w (t ++ ':' :: r) = true := by
  have hlen : t.length = w.length := by rw [← hlow, List.length_map]
  rw [tryVocabWord, ← hlen, List.take_left, List.drop_left, hlow]
  simp [boundaryOk]
  decide


theorem matchType_vocab (w : String) (hw : w ∈ commitTypeVocab) (t r : List Char)
    (hlow : t.map pyToLower = w.data) :
    matchTypeAlt (commitTypeVocab.map String.data) (t ++ ':' :: r) = some (t, ':' :: r) := by
  have hlen : t.length = w.data.length := by rw [← hlow, List.length_map]
  have hself := tryVocab_self w.data t r hlow
  have htake : (t ++ ':' :: r).take w.data.length = t := by
    rw [← hlen]
    exact List.take_left t _
  have hdrop : (t ++ ':' :: r).drop w.data.length = ':' :: r := by
    rw [← hlen]
    exact List.drop_left t _
  simp only [commitTypeVocab, List.mem_cons] at hw
  rcases hw with h | h | h | h | h | h | h | h | h | h | h | h
  · -- build
    subst h
    have sw : tryVocabWord ['b', 'u', 'i', 'l', 'd'] (t ++ ':' :: r) = true := hself
    have st : List.take 5 (t ++ ':' :: r) = t := htake
    have sd : List.drop 5 (t ++ ':' :: r) = ':' :: r := hdrop
    simp [matchTypeAlt, commitTypeVocab, sw, st, sd]
  · -- chore
    subst h
    have s0 : tryVocabWord ['b', 'u', 'i', 'l', 'd'] (t ++ ':' :: r) = false :=
      tryVocab_ne "build".data "chore".data t r hlow (by decide) (by decide)
    have sw : tryVocabWord ['c', 'h', 'o', 'r', 'e'] (t ++ ':' :: r) = true := hself
    have st : List.take 5 (t ++ ':' :: r) = t := htake
    have sd : List.drop 5 (t ++ ':' :: r) = ':' :: r := hdrop
    simp [matchTypeAlt, commitTypeVocab, s0, sw, st, sd]
  · -- ci
    subst h
    have s0 : tryVocabWord ['b', 'u', 'i', 'l', 'd'] (t ++ ':' :: r) = false :=
      tryVocab_ne "build".data "ci".data t r hlow (by decide) (by decide)
    have s1 : tryVocabWord ['c', 'h', 'o', 'r', 'e'] (t ++ ':' :: r) = false :=
      tryVocab_ne "chore".data "ci".data t r hlow (by decide) (by decide)
    have sw : tryVocabWord ['c', 'i'] (t ++ ':' :: r) = true := hself
    have st : List.take 2 (t ++ ':' :: r) = t := htake
    have sd : List.drop 2 (t ++ ':' :: r) = ':' :: r := hdrop
    simp [matchTypeAlt, commitTypeVocab, s0, s1, sw, st, sd]
  · -- docs
    subst h
    have s0 : tryVocabWord ['b', 'u', 'i', 'l', 'd'] (t ++ ':' :: r) = false :=
      tryVocab_ne "build".data "docs".data t r hlow (by decide) (by decide)
    have s1 : tryVocabWord ['c', 'h', 'o', 'r', 'e'] (t ++ ':' :: r) = false :=
      tryVocab_ne "chore".data "docs".data t r hlow (by decide) (by decide)
    have s2 : tryVocabWord ['c', 'i'] (t ++ ':' :: r) = false :=
      tryVocab_ne "ci".data "docs".data t r hlow (by decide) (by decide)
    have sw : tryVocabWord ['d', 'o', 'c', 's'] (t ++ ':' :: r) = true := hself
    have st : List.take 4 (t ++ ':' :: r) = t := htake
    have sd : List.drop 4 (t ++ ':' :: r) = ':' :: r := hdrop
    simp [matchTypeAlt, commitTypeVocab, s0, s1, s2, sw, st, sd]
  · -- feat
    subst h
    have s0 : tryVocabWord ['b', 'u', 'i', 'l', 'd'] (t ++ ':' :: r) = false :=
      tryVocab_ne "build".data "feat".data t r hlow (by decide) (by decide)
    have s1 : tryVocabWord ['c', 'h', 'o', 'r', 'e'] (t ++ ':' :: r) = false :=
      tryVocab_ne "chore".data "feat".data t r hlow (by decide) (by decide)
    have s2 : tryVocabWord ['c', 'i'] (t ++ ':' :: r) = false :=
      tryVocab_ne "ci".data "feat".data t r hlow (by decide) (by decide)
    have s3 : tryVocabWord ['d', 'o', 'c', 's'] (t ++ ':' :: r) = false :=
      tryVocab_ne "docs".data "feat".data t r hlow (by decide) (by decide)
    have sw : tryVocabWord ['f', 'e', 'a', 't'] (t ++ ':' :: r) = true := hself
    have st : List.take 4 (t ++ ':' :: r) = t := htake
    have sd : List.drop 4 (t ++ ':' :: r) = ':' :: r := hdrop
    simp [matchTypeAlt, commitTypeVocab, s0, s1, s2, s3, sw, st, sd]
  · -- feature
    subst h
    have s0 : tryVocabWord ['b', 'u', 'i', 'l', 'd'] (t ++ ':' :: r) = false :=
      tryVocab_ne "build".data "feature".data t r hlow (by decide) (by decide)
    have s1 : tryVocabWord ['c', 'h', 'o', 'r', 'e'] (t ++ ':' :: r) = false :=
      tryVocab_ne "chore".data "feature".data t r hlow (by decide) (by decide)
    have s2 : tryVocabWord ['c', 'i'] (t ++ ':' :: r) = false :=
      tryVocab_ne "ci".data "feature".data t r hlow (by decide) (by decide)
    have s3 : tryVocabWord ['d', 'o', 'c', 's'] (t ++ ':' :: r) = false :=
      tryVocab_ne "docs".data "feature".data t r hlow (by decide) (by decide)
    have s4 : tryVocabWord ['f', 'e', 'a', 't'] (t ++ ':' :: r) = false :=
      tryVocab_strict "feat".data "feature".data t r hlow (by decide) (by decide)
    have sw : tryVocabWord ['f', 'e', 'a', 't', 'u', 'r', 'e'] (t ++ ':' :: r) = true := hself
    have st : List.take 7 (t ++ ':' :: r) = t := htake
    have sd : List.drop 7 (t ++ ':' :: r) = ':' :: r := hdrop
    simp [matchTypeAlt, commitTypeVocab, s0, s1, s2, s3, s4, sw, st, sd]
  · -- fix
    subst h
    have s0 : tryVocabWord ['b', 'u', 'i', 'l', 'd'] (t ++ ':' :: r) = false :=
      tryVocab_ne "build".data "fix".data t r hlow (by decide) (by decide)
    have s1 : tryVocabWord ['c', 'h', 'o', 'r', 'e'] (t ++ ':' :: r) = false :=
      tryVocab_ne "chore".data "fix".data t r hlow (by decide) (by decide)
    have s2 : tryVocabWord ['c', 'i'] (t ++ ':' :: r) = false :=
      tryVocab_ne "ci".data "fix".data t r hlow (by decide) (by decide)
    have s3 : tryVocabWord ['d', 'o', 'c', 's'] (t ++ ':' :: r) = false :=
      tryVocab_ne "docs".data "fix".data t r hlow (by decide) (by decide)
    have s4 : tryVocabWord ['f', 'e', 'a', 't'] (t ++ ':' :: r) = false :=
      tryVocab_ne "feat".data "fix".data t r hlow (by decide) (by decide)
    have s5 : tryVocabWord ['f', 'e', 'a', 't', 'u', 'r', 'e'] (t ++ ':' :: r) = false :=
      tryVocab_ne "feature".data "fix".data t r hlow (by decide) (by decide)
    have sw : tryVocabWord ['f', 'i', 'x'] (t ++ ':' :: r) = true := hself
    have st : List.take 3 (t ++ ':' :: r) = t := htake
    have sd : List.drop 3 (t ++ ':' :: r) = ':' :: r := hdrop
    simp [matchTypeAlt, commitTypeVocab, s0, s1, s2, s3, s4, s5, sw, st, sd]
  · -- perf
    subst h
    have s0 : tryVocabWord ['b', 'u', 'i', 'l', 'd'] (t ++ ':' :: r) = false :=
      tryVocab_ne "build".data "perf".data t r hlow (by decide) (by decide)
    have s1 : tryVocabWord ['c', 'h', 'o', 'r', 'e'] (t ++ ':' :: r) = false :=
      tryVocab_ne "chore".data "perf".data t r hlow (by decide) (by decide)
    have s2 : tryVocabWord ['c', 'i'] (t ++ ':' :: r) = false :=
      tryVocab_ne "ci".data "perf".data t r hlow (by decide) (by decide)
    have s3 : tryVocabWord ['d', 'o', 'c', 's'] (t ++ ':' :: r) = false :=
      tryVocab_ne "docs".data "perf".data t r hlow (by decide) (by decide)
    have s4 : tryVocabWord ['f', 'e', 'a', 't'] (t ++ ':' :: r) = false :=
      tryVocab_ne "feat".data "perf".data t r hlow (by decide) (by decide)
    have s5 : tryVocabWord ['f', 'e', 'a', 't', 'u', 'r', 'e'] (t ++ ':' :: r) = false :=
      tryVocab_ne "feature".data "perf".data t r hlow (by decide) (by decide)
    have s6 : tryVocabWord ['f', 'i', 'x'] (t ++ ':' :: r) = false :=
      tryVocab_ne "fix".data "perf".data t r hlow (by decide) (by decide)
    have sw : tryVocabWord ['p', 'e', 'r', 'f'] (t ++ ':' :: r) = true := hself
    have st : List.take 4 (t ++ ':' :: r) = t := htake
    have sd : List.drop 4 (t ++ ':' :: r) = ':' :: r := hdrop
    simp [matchTypeAlt, commitTypeVocab, s0, s1, s2, s3, s4, s5, s6, sw, st, sd]
  · -- refactor
    subst h
    have s0 : tryVocabWord ['b', 'u', 'i', 'l', 'd'] (t ++ ':' :: r) = false :=
      tryVocab_ne "build".data "refactor".data t r hlow (by decide) (by decide)
    have s1 : tryVocabWord ['c', 'h', 'o', 'r', 'e'] (t ++ ':' :: r) = false :=
      tryVocab_ne "chore".data "refactor".data t r hlow (by decide) (by decide)
    have s2 : tryVocabWord ['c', 'i'] (t ++ ':' :: r) = false :=
      tryVocab_ne "ci".data "refactor".data t r hlow (by decide) (by decide)
    have s3 : tryVocabWord ['d', 'o', 'c', 's'] (t ++ ':' :: r) = false :=
      tryVocab_ne "docs".data "refactor".data t r hlow (by decide) (by decide)
    have s4 : tryVocabWord ['f', 'e', 'a', 't'] (t ++ ':' :: r) = false :=
      tryVocab_ne "feat".data "refactor".data t r hlow (by decide) (by decide)
    have s5 : tryVocabWord ['f', 'e', 'a', 't', 'u', 'r', 'e'] (t ++ ':' :: r) = false :=
      tryVocab_ne "feature".data "refactor".data t r hlow (by decide) (by decide)
    have s6 : tryVocabWord ['f', 'i', 'x'] (t ++ ':' :: r) = false :=
      tryVocab_ne "fix".data "refactor".data t r hlow (by decide) (by decide)
    have s7 : tryVocabWord ['p', 'e', 'r', 'f'] (t ++ ':' :: r) = false :=
      tryVocab_ne "perf".data "refactor".data t r hlow (by decide) (by decide)
    have sw : tryVocabWord ['r', 'e', 'f', 'a', 'c', 't', 'o', 'r'] (t ++ ':' :: r) = true := hself
    have st : List.take 8 (t ++ ':' :: r) = t := htake
    have sd : List.drop 8 (t ++ ':' :: r) = ':' :: r := hdrop
    simp [matchTypeAlt, commitTypeVocab, s0, s1, s2, s3, s4, s5, s6, s7, sw, st, sd]
  · -- style
    subst h
    have s0 : tryVocabWord ['b', 'u', 'i', 'l', 'd'] (t ++ ':' :: r) = false :=
      tryVocab_ne "build".data "style".data t r hlow (by decide) (by decide)
    have s1 : tryVocabWord ['c', 'h', 'o', 'r', 'e'] (t ++ ':' :: r) = false :=
      tryVocab_ne "chore".data "style".data t r hlow (by decide) (by decide)
    have s2 : tryVocabWord ['c', 'i'] (t ++ ':' :: r) = false :=
      tryVocab_ne "ci".data "style".data t r hlow (by decide) (by decide)
    have s3 : tryVocabWord ['d', 'o', 'c', 's'] (t ++ ':' :: r) = false :=
      tryVocab_ne "docs".data "style".data t r hlow (by decide) (by decide)
    have s4 : tryVocabWord ['f', 'e', 'a', 't'] (t ++ ':' :: r) = false :=
      tryVocab_ne "feat".data "style".data t r hlow (by decide) (by decide)
    have s5 : tryVocabWord ['f', 'e', 'a', 't', 'u', 'r', 'e'] (t ++ ':' :: r) = false :=
      tryVocab_ne "feature".data "style".data t r hlow (by decide) (by decide)
    have s6 : tryVocabWord ['f', 'i', 'x'] (t ++ ':' :: r) = false :=
      tryVocab_ne "fix".data "style".data t r hlow (by decide) (by decide)
    have s7 : tryVocabWord ['p', 'e', 'r', 'f'] (t ++ ':' :: r) = false :=
      tryVocab_ne "perf".data "style".data t r hlow (by decide) (by decide)
    have s8 : tryVocabWord ['r', 'e', 'f', 'a', 'c', 't', 'o', 'r'] (t ++ ':' :: r) = false :=
      tryVocab_ne "refactor".data "style".data t r hlow (by decide) (by decide)
    have sw : tryVocabWord ['s', 't', 'y', 'l', 'e'] (t ++ ':' :: r) = true := hself
    have st : List.take 5 (t ++ ':' :: r) = t := htake
    have sd : List.drop 5 (t ++ ':' :: r) = ':' :: r := hdrop
    simp [matchTypeAlt, commitTypeVocab, s0, s1, s2, s3, s4, s5, s6, s7, s8, sw, st, sd]
  · -- test
    subst h
    have s0 : tryVocabWord ['b', 'u', 'i', 'l', 'd'] (t ++ ':' :: r) = false :=
      tryVocab_ne "build".data "test".data t r hlow (by decide) (by decide)
    have s1 : tryVocabWord ['c', 'h', 'o', 'r', 'e'] (t ++ ':' :: r) = false :=
      tryVocab_ne "chore".data "test".data t r hlow (by decide) (by decide)
    have s2 : tryVocabWord ['c', 'i'] (t ++ ':' :: r) = false :=
      tryVocab_ne "ci".data "test".data t r hlow (by decide) (by decide)
    have s3 : tryVocabWord ['d', 'o', 'c', 's'] (t ++ ':' :: r) = false :=
      tryVocab_ne "docs".data "test".data t r hlow (by decide) (by decide)
    have s4 : tryVocabWord ['f', 'e', 'a', 't'] (t ++ ':' :: r) = false :=
      tryVocab_ne "feat".data "test".data t r hlow (by decide) (by decide)
    have s5 : tryVocabWord ['f', 'e', 'a', 't', 'u', 'r', 'e'] (t ++ ':' :: r) = false :=
      tryVocab_ne "feature".data "test".data t r hlow (by decide) (by decide)
    have s6 : tryVocabWord ['f', 'i', 'x'] (t ++ ':' :: r) = false :=
      tryVocab_ne "fix".data "test".data t r hlow (by decide) (by decide)
    have s7 : tryVocabWord ['p', 'e', 'r', 'f'] (t ++ ':' :: r) = false :=
      tryVocab_ne "perf".data "test".data t r hlow (by decide) (by decide)
    have s8 : tryVocabWord ['r', 'e', 'f', 'a', 'c', 't', 'o', 'r'] (t ++ ':' :: r) = false :=
      tryVocab_ne "refactor".data "test".data t r hlow (by decide) (by decide)
    have s9 : tryVocabWord ['s', 't', 'y', 'l', 'e'] (t ++ ':' :: r) = false :=
      tryVocab_ne "style".data "test".data t r hlow (by decide) (by decide)
    have sw : tryVocabWord ['t', 'e', 's', 't'] (t ++ ':' :: r) = true := hself
    have st : List.take 4 (t ++ ':' :: r) = t := htake
    have sd : List.drop 4 (t ++ ':' :: r) = ':' :: r := hdrop
    simp [matchTypeAlt, commitTypeVocab, s0, s1, s2, s3, s4, s5, s6, s7, s8, s9, sw, st, sd]
  · exact absurd h (List.not_mem_nil w)

theorem contains_eq_false_of_forall_ne (l : List Char) (a : Char)
    (h : ∀ c ∈ l, c ≠ a) : l.contains a = false := by
  have hm : ¬ a ∈ l := fun hm => h a hm rfl
  simp [hm]

theorem parseSep_colon_space (text : List Char)
    (hhead : ∀ c, text.head? = some c → pyIsSpaceChar c = false)
    (hnl : ∀ c ∈ text, c ≠ '\n') :
    parseSep (':' :: ' ' :: text) = some text := by
  have htw : (' ' :: text).takeWhile pyIsSpaceChar = ' ' :: text.takeWhile pyIsSpaceChar :=
    List.takeWhile_cons_of_pos (by decide)
  have hdw2 : text.dropWhile pyIsSpaceChar = text := by
    cases ht : text with
    | nil => rfl
    | cons c cs =>
      have hc : pyIsSpaceChar c = false := hhead c (by rw [ht]; rfl)
      rw [List.dropWhile_cons_of_neg]
      rw [hc]
      exact Bool.false_ne_true
  have hdw : (' ' :: text).dropWhile pyIsSpaceChar = text := by
    rw [List.dropWhile_cons_of_pos (by decide), hdw2]
  have hcm : commentMatch text = some text := by
    rw [commentMatch, contains_eq_false_of_forall_ne text '\n' hnl]
    rfl
  rw [parseSep, htw, hdw, hcm]
  rfl

theorem parseAfterType_sep (text : List Char)
    (hhead : ∀ c, text.head? = some c → pyIsSpaceChar c = false)
    (hnl : ∀ c ∈ text, c ≠ '\n') :
    parseAfterType (':' :: ' ' :: text) = some (none, text) := by
  have h0 : parseAfterType (':' :: ' ' :: text)
      = (parseSep (':' :: ' ' :: text)).map fun cm => ((none : Option (List Char)), cm) := rfl
  rw [h0, parseSep_colon_space text hhead hnl]
  rfl

theorem classify_vocab_form (t text : String)
    (hvocab : pyLowerStr t ∈ commitTypeVocab)
    (hnl : ∀ c ∈ text.data, c ≠ '\n')
    (hhead : ∀ c, text.data.head? = some c → pyIsSpaceChar c = false) :
    classify (t ++ ": " ++ text) = some ⟨t, none, text⟩ := by
  have hdata : (t ++ ": " ++ text).data = t.data ++ ':' :: ' ' :: text.data := by
    rw [String.data_append, String.data_append]
    rw [List.append_assoc]
    rfl
  have hm := matchType_vocab (pyLowerStr t) hvocab t.data (' ' :: text.data) rfl
  have hp := parseAfterType_sep text.data hhead hnl
  rw [classify, classifyChars, hdata]
  simp only [hm, hp]
  rfl

theorem matchTypeAlt_sound (vl : List (List Char)) (s a b : List Char)
    (h : matchTypeAlt vl s = some (a, b)) :
    s = a ++ b ∧ ∃ w ∈ vl, a.map pyToLower = w := by
  induction vl with
  | nil => exact absurd h (by simp [matchTypeAlt])
  | cons w ws ih =>
    rw [matchTypeAlt] at h
    by_cases hc : tryVocabWord w s = true
    · rw [if_pos hc] at h
      injection h with h1
      have ha : s.take w.length = a := congrArg Prod.fst h1
      have hb : s.drop w.length = b := congrArg Prod.snd h1
      have hmap : (s.take w.length).map pyToLower = w := by
        rw [tryVocabWord] at hc
        exact eq_of_beq ((Bool.and_eq_true _ _).mp hc).1
      refine ⟨?_, w, List.mem_cons_self _ _, ?_⟩
      · rw [← ha, ← hb, List.take_append_drop]
      · rw [← ha, hmap]
    · rw [if_neg hc] at h
      obtain ⟨h1, w2, hw2, h2⟩ := ih h
      exact ⟨h1, w2, List.mem_cons_of_mem _ hw2, h2⟩

theorem parseSep_sound (x cm : List Char) (h : parseSep x = some cm) :
    ∃ tail, x = ':' :: tail := by
  unfold parseSep at h
  split at h
  · next r => exact ⟨r, rfl⟩
  · exact absurd h (by simp)

theorem tryIssueAt_sound (run afterRun : List Char) (j : Nat) (iss cm : List Char)
    (h : tryIssueAt run afterRun j = some (iss, cm)) :
    iss = run.take j ∧ run[j]? = some ')'
      ∧ parseSep (run.drop (j + 1) ++ afterRun) = some cm := by
  unfold tryIssueAt at h
  by_cases hc : run[j]? = some ')'
  · rw [if_pos hc] at h
    cases hp : parseSep (run.drop (j + 1) ++ afterRun) with
    | none => rw [hp] at h; exact absurd h (by simp)
    | some c2 =>
      rw [hp] at h
      simp only [Option.map_some'] at h
      injection h with h1
      have hi : run.take j = iss := congrArg Prod.fst h1
      have hcm : c2 = cm := congrArg Prod.snd h1
      exact ⟨hi.symm, hc, by rw [hcm]⟩
  · rw [if_neg hc] at h
    exact absurd h (by simp)

theorem tryIssueDesc_sound (run afterRun : List Char) (j : Nat) (iss cm : List Char)
    (h : tryIssueDesc run afterRun j = some (iss, cm)) :
    ∃ k, k ≤ j ∧ tryIssueAt run afterRun k = some (iss, cm) := by
  induction j with
  | zero => exact ⟨0, Nat.le_refl 0, h⟩
  | succ n ih =>
    rw [tryIssueDesc] at h
    cases ht : tryIssueAt run afterRun (n + 1) with
    | some p =>
      rw [ht] at h
      injection h with h1
      exact ⟨n + 1, Nat.le_refl _, by rw [ht, h1]⟩
    | none =>
      rw [ht] at h
      obtain ⟨k, hk, h2⟩ := ih h
      exact ⟨k, Nat.le_succ_of_le hk, h2⟩

theorem issuePath_decomp (run after : List Char) (k : Nat) (tail : List Char)
    (hjc : run[k]? = some ')')
    (htail : run.drop (k + 1) ++ after = ':' :: tail) :
    run ++ after = (run.take k ++ [')']) ++ ':' :: tail := by
  obtain ⟨hklt, hg⟩ := List.getElem?_eq_some.mp hjc
  conv_lhs => rw [← List.take_append_drop k run, List.drop_eq_getElem_cons hklt, hg]
  rw [← htail]
  simp [List.append_assoc]

theorem parseAfterType_sound (rest : List Char) (iss : Option (List Char)) (cm : List Char)
    (h : parseAfterType rest = some (iss, cm)) :
    ∃ issuePart tail, rest = issuePart ++ ':' :: tail
      ∧ (issuePart = [] ∨ ∃ inner, issuePart = '(' :: (inner ++ [')'])) := by
  unfold parseAfterType at h
  split at h
  · next r =>
    simp only [] at h
    cases hd : tryIssueDesc (r.takeWhile fun a => !(pyIsSpaceChar a))
        (r.dropWhile fun a => !(pyIsSpaceChar a))
        ((r.takeWhile fun a => !(pyIsSpaceChar a)).length - 1) with
    | some ic =>
      rw [hd] at h
      obtain ⟨k, hk, hat⟩ := tryIssueDesc_sound _ _ _ ic.1 ic.2 (by rw [hd])
      obtain ⟨hiss, hjc, hsep⟩ := tryIssueAt_sound _ _ _ _ _ hat
      obtain ⟨tail, htail⟩ := parseSep_sound _ _ hsep
      have hr : r = (r.takeWhile fun a => !(pyIsSpaceChar a))
          ++ (r.dropWhile fun a => !(pyIsSpaceChar a)) :=
        (List.takeWhile_append_dropWhile _ _).symm
      have hdecomp : r
          = ((r.takeWhile fun a => !(pyIsSpaceChar a)).take k ++ [')']) ++ ':' :: tail := by
        conv_lhs => rw [hr]
        exact issuePath_decomp _ _ k tail hjc htail
      refine ⟨'(' :: ((r.takeWhile fun a => !(pyIsSpaceChar a)).take k ++ [')']), tail, ?_, ?_⟩
      · rw [List.cons_append]
        exact congrArg (List.cons '(') hdecomp
      · exact Or.inr ⟨_, rfl⟩
    | none =>
      rw [hd] at h
      have hps : parseSep ('(' :: r) = none := rfl
      rw [hps] at h
      exact absurd h (by simp)
  · next r hne =>
    cases hp : parseSep rest with
    | none => rw [hp] at h; exact absurd h (by simp)
    | some cm2 =>
      obtain ⟨tail, htail⟩ := parseSep_sound _ _ hp
      exact ⟨[], tail, by rw [htail]; rfl, Or.inl rfl⟩

theorem classify_sound (s : String) (info : CommitInfo) (h : classify s = some info) :
    ∃ t issuePart tail : List Char,
      s.data = t ++ issuePart ++ ':' :: tail
      ∧ (⟨t.map pyToLower⟩ : String) ∈ commitTypeVocab
      ∧ (issuePart = [] ∨ ∃ inner, issuePart = '(' :: (inner ++ [')'])) := by
  rw [classify] at h
  cases hc : classifyChars s.data with
  | none => rw [hc] at h; exact absurd h (by simp)
  | some r =>
    rw [classifyChars] at hc
    cases hm : matchTypeAlt (commitTypeVocab.map String.data) s.data with
    | none => rw [hm] at hc; exact absurd hc (by simp)
    | some tr =>
      rw [hm] at hc
      obtain ⟨hs, w, hw, hlow⟩ := matchTypeAlt_sound _ _ tr.1 tr.2 (by rw [hm])
      simp only [Option.map_eq_some'] at hc
      obtain ⟨ic, hic, _⟩ := hc
      obtain ⟨issuePart, tail, hrest, hshape⟩ :=
        parseAfterType_sound tr.2 ic.1 ic.2 (by rw [hic])
      refine ⟨tr.1, issuePart, tail, ?_, ?_, hshape⟩
      · rw [hs, hrest, List.append_assoc]
      · obtain ⟨w2, hw2, hwd⟩ := List.mem_map.mp hw
        rw [hlow, ← hwd]
        exact hw2

/-- Claim C6: the commit classifier. First, for every summary of the
shape `<type>: <text>` where lower-casing the type gives one of the
eleven vocabulary words, the text holds no newline (a commit summary is
one line) and the text does not start with further whitespace (the greedy
`\s+` otherwise absorbs it into the separator), the classifier matches
and returns the type exactly as written, an absent issue, and the text as
the comment. Second, every summary the classifier matches starts with a
vocabulary word (case-insensitively, as a whole word — a non-word
character follows it), then an optional parenthesized whitespace-free
issue part, then a colon; so every summary not of that shape is left
unclassified. -/
theorem spec_c6_classifier :
    (∀ t text : String, pyLowerStr t ∈ commitTypeVocab →
      (∀ c ∈ text.data, c ≠ '\n') →
      (∀ c, text.data.head? = some c → pyIsSpaceChar c = false) →
      classify (t ++ ": " ++ text) = some ⟨t, none, text⟩)
    ∧ (∀ (s : String) (info : CommitInfo), classify s = some info →
        ∃ t issuePart tail : List Char,
          s.data = t ++ issuePart ++ ':' :: tail
          ∧ (⟨t.map pyToLower⟩ : String) ∈ commitTypeVocab
          ∧ (issuePart = [] ∨ ∃ inner, issuePart = '(' :: (inner ++ [')']))) :=
  ⟨classify_vocab_form, classify_sound⟩

/-- Claim C6 witness: a mixed-case vocabulary type with a plain comment
classifies, preserving the type's casing, with an absent issue. -/
theorem spec_c6_classifier_witness :
    classify "FeAt: add X" = some ⟨"FeAt", none, "add X"⟩ :=
  spec_c6_classifier.1 "FeAt" "add X" (by decide) (by decide) (by decide)
